import Mathlib

set_option maxRecDepth 8000

/-!
Verification development for the `bitmex` multi-account order-management
backend (modules `backend/accounts.py`, `backend/api.py`, `backend/core.py`).

The Python code is shallowly embedded:

* Python dicts used as request parameter sets become insertion-ordered
  association lists (`Params`); dict assignment, lookup and `pop` are
  `dictSet`, `dictGet`, `dictPop`.
* Python exceptions become an explicit error type (`PyErr` for plain
  exceptions, `PyExc` adding the aggregate `BitmexCoreMultiException`);
  fallible code returns `Except`.
* Network effects (HTTP requests, the exchange's responses) are passed in
  as oracle functions, and the requests actually issued are collected into
  explicit trace lists so that "no network call was made" is a statement
  about a list.
* Python floats are modelled as rationals (`ℚ`); Python's built-in
  `round` (round-half-to-even) is `roundHalfEven`.
* Exception message strings follow the source, with apostrophes elided.
-/

/-! ## Python-level data model -/

/-- An account record, as stored by `backend/accounts.py`:
`{"name": ..., "key": ..., "secret": ..., "host": ...}`. -/
structure Account where
  name : String
  key : String
  secret : String
  host : String
deriving DecidableEq, Repr

/-- A Python value as it appears in request parameter dicts: a string, an
int, a float (modelled as `ℚ`) or `None`. -/
inductive PyVal where
  | str (v : String)
  | int (v : ℤ)
  | rat (v : ℚ)
  | null
deriving DecidableEq, Repr

/-- An insertion-ordered Python dict of request parameters. -/
abbrev Params := List (String × PyVal)

/-- Whether the dict has an entry for key `k`. -/
def containsKey (d : Params) (k : String) : Bool :=
  d.any (fun kv => kv.1 == k)

/-- Python dict assignment `d[k] = v`: replace in place if the key exists
(keeping its position), else append at the end. -/
def dictSet (d : Params) (k : String) (v : PyVal) : Params :=
  if containsKey d k then d.map (fun kv => if kv.1 == k then (k, v) else kv)
  else d ++ [(k, v)]

/-- Python dict lookup `d[k]`, as an `Option` (missing key = `KeyError`). -/
def dictGet (d : Params) (k : String) : Option PyVal :=
  (d.find? (fun kv => kv.1 == k)).map (·.2)

/-- Python `d.pop(k)`: the dict with the entry for `k` removed. -/
def dictPop (d : Params) (k : String) : Params :=
  d.filter (fun kv => kv.1 != k)

/-- A plain (non-aggregate) Python exception, covering the interpreter
errors this code can hit and the typed exceptions of
`backend/exceptions.py`. -/
inductive PyErr where
  | typeError (msg : String)
  | indexError (msg : String)
  | keyError (msg : String)
  | zeroDivision
  | bitmexApi (msg : String)
  | bitmexAccounts (msg : String)
  | bitmexCore (msg : String)
deriving DecidableEq, Repr

/-- A Python exception as raised by the core fan-out layer: either a plain
exception or a `BitmexCoreMultiException` carrying the ordered lists of
failed accounts and their exceptions (`accounts` / `exceptions`). -/
inductive PyExc where
  | base (e : PyErr)
  | multi (accounts : List Account) (excs : List PyErr)
deriving DecidableEq, Repr

/-- Python `str(e)` on a plain exception: its message text. -/
def excMsg : PyErr → String
  | .typeError m => m
  | .indexError m => m
  | .keyError m => m
  | .zeroDivision => "float division by zero"
  | .bitmexApi m => m
  | .bitmexAccounts m => m
  | .bitmexCore m => m

/-- Whether a plain exception is one of the typed `Bitmex*` exceptions of
`backend/exceptions.py` (as opposed to an interpreter error). -/
def PyErr.isBitmexTyped : PyErr → Bool
  | .bitmexApi _ => true
  | .bitmexAccounts _ => true
  | .bitmexCore _ => true
  | _ => false

/-- Whether an exception is the aggregate `BitmexCoreMultiException`. -/
def PyExc.isMulti : PyExc → Bool
  | .multi _ _ => true
  | _ => false

/-! ## SHA-256 and HMAC (the `hashlib` / `hmac` calls of `backend/api.py`)

Bytes are `Nat`s below 256; 32-bit words are `Nat`s reduced mod `2 ^ 32`
explicitly wherever overflow matters. -/

/-- The 32-bit modulus. -/
def M32 : Nat := 4294967296

/-- Right rotation, 32-bit, of a word already below `2 ^ 32`. -/
def rotr32 (n x : Nat) : Nat :=
  ((x >>> n) ||| (x <<< (32 - n))) % M32

/-- SHA-256 big sigma-0. -/
def bSig0 (x : Nat) : Nat := rotr32 2 x ^^^ rotr32 13 x ^^^ rotr32 22 x

/-- SHA-256 big sigma-1. -/
def bSig1 (x : Nat) : Nat := rotr32 6 x ^^^ rotr32 11 x ^^^ rotr32 25 x

/-- SHA-256 small sigma-0. -/
def sSig0 (x : Nat) : Nat := rotr32 7 x ^^^ rotr32 18 x ^^^ (x >>> 3)

/-- SHA-256 small sigma-1. -/
def sSig1 (x : Nat) : Nat := rotr32 17 x ^^^ rotr32 19 x ^^^ (x >>> 10)

/-- SHA-256 choice function (the complement is xor against the 32-bit mask). -/
def chF (x y z : Nat) : Nat := (x &&& y) ^^^ ((x ^^^ 4294967295) &&& z)

/-- SHA-256 majority function. -/
def majF (x y z : Nat) : Nat := (x &&& y) ^^^ (x &&& z) ^^^ (y &&& z)

/-- Integer square root by bisection (`lo` maintains `lo ^ 2 <= n`). -/
def isqrtAux (n : Nat) : Nat → Nat → Nat → Nat
  | 0, lo, _ => lo
  | fuel + 1, lo, hi =>
    if hi ≤ lo + 1 then lo
    else
      let mid := (lo + hi) / 2
      if mid * mid ≤ n then isqrtAux n fuel mid hi else isqrtAux n fuel lo mid

/-- Integer square root. -/
def isqrtNat (n : Nat) : Nat := isqrtAux n 130 0 (n + 1)

/-- Integer cube root by bisection. -/
def icbrtAux (n : Nat) : Nat → Nat → Nat → Nat
  | 0, lo, _ => lo
  | fuel + 1, lo, hi =>
    if hi ≤ lo + 1 then lo
    else
      let mid := (lo + hi) / 2
      if mid * mid * mid ≤ n then icbrtAux n fuel mid hi
      else icbrtAux n fuel lo mid

/-- Integer cube root. -/
def icbrtNat (n : Nat) : Nat := icbrtAux n 130 0 (n + 1)

/-- Primality by trial division (for the small primes below). -/
def isSmallPrime (n : Nat) : Bool :=
  decide (2 ≤ n) && ((List.range n).drop 2).all (fun d => n % d != 0)

/-- The first `k` primes. -/
def firstPrimes (k : Nat) : List Nat :=
  ((List.range 400).filter isSmallPrime).take k

/-- The 64 SHA-256 round constants: the first 32 bits of the fractional
parts of the cube roots of the first 64 primes. -/
def K256 : List Nat :=
  (firstPrimes 64).map (fun p => icbrtNat (p * 2 ^ 96) % M32)

/-- The eight SHA-256 working registers. -/
structure Sha2State where
  a : Nat
  b : Nat
  c : Nat
  d : Nat
  e : Nat
  f : Nat
  g : Nat
  h : Nat
deriving DecidableEq, Repr

/-- The SHA-256 initial hash value: the first 32 bits of the fractional
parts of the square roots of the first 8 primes. -/
def H256 : Sha2State :=
  match (firstPrimes 8).map (fun p => isqrtNat (p * 2 ^ 64) % M32) with
  | [a, b, c, d, e, f, g, h] => ⟨a, b, c, d, e, f, g, h⟩
  | _ => ⟨0, 0, 0, 0, 0, 0, 0, 0⟩

/-- One SHA-256 round with schedule word and round constant `wk`. -/
def sha256Round (s : Sha2State) (wk : Nat × Nat) : Sha2State :=
  let t1 := (s.h + bSig1 s.e + chF s.e s.f s.g + wk.2 + wk.1) % M32
  let t2 := (bSig0 s.a + majF s.a s.b s.c) % M32
  ⟨(t1 + t2) % M32, s.a, s.b, s.c, (s.d + t1) % M32, s.e, s.f, s.g⟩

/-- Big-endian byte rendering of `val` on `n` bytes. -/
def toBEBytes (n : Nat) (val : Nat) : List Nat :=
  (List.range n).map (fun i => (val >>> (8 * (n - 1 - i))) % 256)

/-- The 16 initial 32-bit schedule words of a 64-byte block (big endian). -/
def toWords (b : List Nat) : List Nat :=
  (List.range 16).map (fun i =>
    (b.getD (4 * i) 0) * 16777216 + (b.getD (4 * i + 1) 0) * 65536 +
    (b.getD (4 * i + 2) 0) * 256 + b.getD (4 * i + 3) 0)

/-- Extend the schedule by `n` further words. -/
def sha256Schedule : Nat → List Nat → List Nat
  | 0, w => w
  | n + 1, w =>
    let t := w.length
    let wi := (sSig1 (w.getD (t - 2) 0) + w.getD (t - 7) 0 +
               sSig0 (w.getD (t - 15) 0) + w.getD (t - 16) 0) % M32
    sha256Schedule n (w ++ [wi])

/-- Compress one 64-byte block into the running hash state. -/
def sha256Compress (s : Sha2State) (block : List Nat) : Sha2State :=
  let w := sha256Schedule 48 (toWords block)
  let t := (w.zip K256).foldl sha256Round s
  ⟨(s.a + t.a) % M32, (s.b + t.b) % M32, (s.c + t.c) % M32, (s.d + t.d) % M32,
   (s.e + t.e) % M32, (s.f + t.f) % M32, (s.g + t.g) % M32, (s.h + t.h) % M32⟩

/-- SHA-256 padding: a `0x80` byte, zeros to 56 mod 64, then the bit length
on 8 big-endian bytes. -/
def sha256Pad (msg : List Nat) : List Nat :=
  let L := msg.length
  let k := (119 - L % 64) % 64
  msg ++ [128] ++ List.replicate k 0 ++ toBEBytes 8 (8 * L)

/-- Split a padded message into 64-byte blocks (the fuel is the block
count, keeping the recursion structural). -/
def chunkBlocks : Nat → List Nat → List (List Nat)
  | 0, _ => []
  | n + 1, l => l.take 64 :: chunkBlocks n (l.drop 64)

/-- SHA-256 of a byte string, as its 32 digest bytes. -/
def sha256 (msg : List Nat) : List Nat :=
  let p := sha256Pad msg
  let s := (chunkBlocks (p.length / 64) p).foldl sha256Compress H256
  toBEBytes 4 s.a ++ toBEBytes 4 s.b ++ toBEBytes 4 s.c ++ toBEBytes 4 s.d ++
  toBEBytes 4 s.e ++ toBEBytes 4 s.f ++ toBEBytes 4 s.g ++ toBEBytes 4 s.h

/-- HMAC-SHA256 (`hmac.new(key, msg, digestmod=hashlib.sha256)`): block
size 64, long keys hashed first, `0x36`/`0x5c` inner and outer pads. -/
def hmacSha256 (key msg : List Nat) : List Nat :=
  let k0 := if key.length > 64 then sha256 key else key
  let k := k0 ++ List.replicate (64 - k0.length) 0
  let inner := sha256 (k.map (fun b => b ^^^ 54) ++ msg)
  sha256 (k.map (fun b => b ^^^ 92) ++ inner)

/-- The lowercase hex character of a nibble. -/
def hexChar (n : Nat) : Char :=
  if n < 10 then Char.ofNat (48 + n) else Char.ofNat (87 + n)

/-- Lowercase hex characters of a byte string, two per byte. -/
def hexBytesChars : List Nat → List Char
  | [] => []
  | b :: t => hexChar (b / 16 % 16) :: hexChar (b % 16) :: hexBytesChars t

/-- Python `.hexdigest()`: the lowercase hex string of a digest. -/
def hexDigest (bs : List Nat) : String := ⟨hexBytesChars bs⟩

/-- The UTF-8 bytes of one character. -/
def charUtf8 (c : Char) : List Nat :=
  let n := c.toNat
  if n < 128 then [n]
  else if n < 2048 then [192 + n / 64, 128 + n % 64]
  else if n < 65536 then [224 + n / 4096, 128 + n / 64 % 64, 128 + n % 64]
  else [240 + n / 262144, 128 + n / 4096 % 64, 128 + n / 64 % 64, 128 + n % 64]

/-- The UTF-8 bytes of a string (`bytes(s, "utf8")`). -/
def strBytes (s : String) : List Nat := (s.data.map charUtf8).flatten

example : hexDigest (sha256 (strBytes "abc")) =
    "ba7816bf8f01cfea414140de5dae2223b00361a396177a9cb410ff61f20015ad" := by
  rfl

example : hexDigest (sha256 []) =
    "e3b0c44298fc1c149afbf4c8996fb92427ae41e4649b934ca495991b7852b855" := by
  rfl

example : hexDigest (hmacSha256 (strBytes "Jefe")
      (strBytes "what do ya want for nothing?")) =
    "5bdcc146bf60754e6a042426089575c75a003f089d2739839dec58b964ec3843" := by
  rfl

/-! ## Signer (`_generate_signature`, `_generate_headers` of `backend/api.py`)

`urlparse` is a Python stdlib collaborator: a URL is modelled already split
into the path and raw query string that `urlparse` extracts (the host and
scheme play no role in signing). The wall clock read `int(time.time())` is
passed in as the integer parameter `now`. -/

/-- A URL as `urlparse` decomposes it: just the components signing uses. -/
structure ParsedURL where
  path : String
  query : String
deriving DecidableEq, Repr

/-- The path part signed by `_generate_signature`: the URL path, with
`"?" + query` appended when the query string is non-empty
(`if parsedURL.query:`). -/
def signaturePath (u : ParsedURL) : String :=
  if u.query ≠ "" then u.path ++ "?" ++ u.query else u.path

/-- Model of `_generate_signature(secret, verb, url, json, expires)`: the lowercase
hex HMAC-SHA256, keyed by the secret, of
`verb + path(+ "?" + query) + str(expires) + json`. -/
def generate_signature (secret verb : String) (url : ParsedURL) (json : String)
    (expires : ℤ) : String :=
  hexDigest (hmacSha256 (strBytes secret)
    (strBytes (verb ++ signaturePath url ++ toString expires ++ json)))

/-- Model of `_generate_headers(life, key, secret, verb, url, json)`. Faithful to the
source: `expires = int(time.time()) + 5` — the `life` argument is accepted
but never used (the comment in the source reads "Unix time + 5 seconds"). -/
def generate_headers (now life : ℤ) (key secret verb : String)
    (url : ParsedURL) (json : String) : List (String × String) :=
  let expires := now + 5
  [("api-key", key),
   ("api-expires", toString expires),
   ("api-signature", generate_signature secret verb url json expires),
   ("content-type", "application/json")]

/-! ## Transport (`_get`, `_put_post_delete` of `backend/api.py`)

The `requests` library is the external collaborator: it is passed in as an
oracle `http` from the built request to either a response (status plus the
parsed JSON body, with the non-200 error envelope fields extracted) or a
network-level error. Every request actually handed to `requests` is
collected in the returned trace list. `urlencode`, `json.dumps` and
`urljoin` are stdlib collaborators modelled by simple renderings; none of
the verified claims depends on their exact output text. -/

/-- The root location of API calls. -/
def API_ROOT : String := "/api/v1/"

/-- Default request life in seconds. -/
def LIFE : ℤ := 5

/-- An HTTP request as handed to the `requests` library. -/
structure HttpReq where
  verb : String
  host : String
  url : ParsedURL
  headers : List (String × String)
  body : String
deriving DecidableEq, Repr

/-- An HTTP response: status code and parsed JSON body — the payload for
status 200, the `{"error": {"name", "message"}}` envelope otherwise. -/
structure HttpResp where
  status : ℤ
  errName : String
  errMsg : String
  data : Params
deriving DecidableEq, Repr

/-- Rendering of one query value (`_json_sanitize` + `urlencode`): strings
pass through, other values are JSON-encoded. -/
def queryVal : PyVal → String
  | .str v => v
  | .int n => toString n
  | .rat q => toString q
  | .null => "null"

/-- Rendering of `urlencode(params)` over the sanitized dict. -/
def queryString (params : Params) : String :=
  String.intercalate "&" (params.map (fun kv => kv.1 ++ "=" ++ queryVal kv.2))

/-- One JSON-rendered value for a request body. -/
def dumpsVal : PyVal → String
  | .str v => "\"" ++ v ++ "\""
  | .int n => toString n
  | .rat q => toString q
  | .null => "null"

/-- Rendering of `json.dumps(params)`: the JSON object body of a mutating request. -/
def dumpsParams (params : Params) : String :=
  "\x7b" ++
  String.intercalate ", "
    (params.map (fun kv => "\"" ++ kv.1 ++ "\": " ++ dumpsVal kv.2)) ++
  "\x7d"

/-- Model of `_get(host, key, secret, path, life, **params)`: the GET transport.
Returns the list of HTTP requests actually issued and the outcome. -/
def api_get (now : ℤ) (host key secret path : String) (life : ℤ)
    (params : Params) (http : HttpReq → Except PyErr HttpResp) :
    List HttpReq × Except PyErr Params :=
  let fullPath := API_ROOT ++ path
  if life < 0 then
    ([], .error (.bitmexApi ("Request life of " ++ toString life ++
      " is negative")))
  else
    let url : ParsedURL :=
      ⟨fullPath, if params.isEmpty then "" else queryString params⟩
    let headers := generate_headers now life key secret "GET" url ""
    let req : HttpReq := ⟨"GET", host, url, headers, ""⟩
    match http req with
    | .error e => ([req], .error e)
    | .ok resp =>
      ([req],
       if resp.status = 200 then .ok resp.data
       else .error (.bitmexApi (toString resp.status ++ " " ++ resp.errName ++
         ": " ++ resp.errMsg)))

/-- Model of `_put_post_delete(host, key, secret, path, verb, life, **params)`: the
mutating transport. Parameters are serialized as one JSON body; headers are
built before the verb dispatch, exactly as in the source. -/
def api_put_post_delete (now : ℤ) (host key secret path verb : String)
    (life : ℤ) (params : Params) (http : HttpReq → Except PyErr HttpResp) :
    List HttpReq × Except PyErr Params :=
  let fullPath := API_ROOT ++ path
  if life < 0 then
    ([], .error (.bitmexApi ("Request life of " ++ toString life ++
      " is negative")))
  else
    let json := dumpsParams params
    let headers := generate_headers now life key secret verb ⟨fullPath, ""⟩ json
    if verb = "PUT" ∨ verb = "POST" ∨ verb = "DELETE" then
      let req : HttpReq := ⟨verb, host, ⟨fullPath, ""⟩, headers, json⟩
      match http req with
      | .error e => ([req], .error e)
      | .ok resp =>
        ([req],
         if resp.status = 200 then .ok resp.data
         else .error (.bitmexApi (toString resp.status ++ " " ++ resp.errName ++
           ": " ++ resp.errMsg)))
    else
      ([], .error (.bitmexApi ("Internal Error: Unrecognized http operation: " ++
        verb ++ " (should be all uppercase).")))

/-! ## Account registry (`backend/accounts.py`)

The module-level `_accounts` list is passed explicitly as `reg`. -/

namespace accounts

/-- Model of `accounts.get(name)`: scan the loaded accounts for the first matching
name; falls through and returns `None` when no account matches — it never
raises. -/
def get (reg : List Account) (name : String) : Option Account :=
  reg.find? (fun a => a.name == name)

end accounts

/-- The interpreter message for subscripting `None`
(`account["key"]` when `accounts.get` returned `None`). -/
def noneSubscriptMsg : String := "NoneType object is not subscriptable"

/-! ## Fan-out engine (`_for_each_account`, `_for_one_account`,
`_for_each_relative` of `backend/core.py`)

The API function argument `call` is an oracle from the resolved account
(standing for its `host, key, secret` credentials) and the parameter dict
to the parsed response or an exception. Each invocation of `call` is
recorded in the returned trace list as `(account name, params sent)`.

Faithful to the source, a name that fails to resolve is NOT caught: the
`try` in the source only guards `accounts.get(name)`, which returns `None`
instead of raising, and the subsequent `account["key"]` outside the `try`
raises an uncaught `TypeError` that aborts the whole loop. -/

/-- The accumulating loop of `_for_each_account`: `sent` is the call trace,
`result`, `excAccounts` and `excs` are the source's `result`,
`coreExc.accounts` and `coreExc.exceptions` lists. -/
def for_each_account_loop {R : Type} (reg : List Account)
    (call : Account → Params → Except PyErr R) (params : Params) :
    List String → List (String × Params) → List (Account × R) →
    List Account → List PyErr →
    List (String × Params) ×
      Except PyErr (List (Account × R) × List Account × List PyErr)
  | [], sent, result, excAccounts, excs =>
    (sent, .ok (result, excAccounts, excs))
  | name :: rest, sent, result, excAccounts, excs =>
    match accounts.get reg name with
    | none => (sent, .error (.typeError noneSubscriptMsg))
    | some account =>
      match call account params with
      | .ok response =>
        for_each_account_loop reg call params rest (sent ++ [(name, params)])
          (result ++ [(account, response)]) excAccounts excs
      | .error e =>
        for_each_account_loop reg call params rest (sent ++ [(name, params)])
          result (excAccounts ++ [account]) (excs ++ [e])

/-- Model of `_for_each_account(accountNames, call, **params)`: run the call for
every account, collecting successes; if any entry failed, raise one
`BitmexCoreMultiException` at the end instead of returning. -/
def for_each_account {R : Type} (reg : List Account)
    (call : Account → Params → Except PyErr R) (names : List String)
    (params : Params) : List (String × Params) × Except PyExc (List (Account × R)) :=
  match for_each_account_loop reg call params names [] [] [] [] with
  | (sent, .error e) => (sent, .error (.base e))
  | (sent, .ok (result, excAccounts, excs)) =>
    if excs.isEmpty then (sent, .ok result)
    else (sent, .error (.multi excAccounts excs))

/-- Model of `_for_one_account(accountName, call, **params)`: resolve one account
and run the call, prefixing the account name into any API error. As in
`_for_each_account`, a failed lookup surfaces as the uncaught `TypeError`
from subscripting `None`. -/
def for_one_account_traced {R : Type} (reg : List Account)
    (call : Account → Params → Except PyErr R) (name : String)
    (params : Params) : List (String × Params) × Except PyErr (Account × R) :=
  match accounts.get reg name with
  | none => ([], .error (.typeError noneSubscriptMsg))
  | some account =>
    match call account params with
    | .ok response => ([(name, params)], .ok (account, response))
    | .error e =>
      ([(name, params)], .error (.bitmexCore (account.name ++ ":\n" ++ excMsg e)))

/-- The `/user/margin` response, reduced to the one field the core reads. -/
structure UserMargin where
  availableMargin : ℤ
deriving DecidableEq, Repr

/-- Model of `account_available_margin(accountName)`: fetch the margin status for
one account (`currency = "XBt"`) and scale `availableMargin` by `1e-8`
into bitcoins. -/
def account_available_margin (reg : List Account)
    (umGet : Account → Except PyErr UserMargin) (name : String) :
    Except PyErr ℚ :=
  match (for_one_account_traced reg (fun a _ => umGet a) name
      [("currency", .str "XBt")]).2 with
  | .error e => .error e
  | .ok (_, um) => .ok ((um.availableMargin : ℚ) * (1 / 100000000))

/-- Python built-in `round` on a rational: round half to even. -/
def roundHalfEven (q : ℚ) : ℤ :=
  let f := ⌊q⌋
  let r := q - f
  if r < 1 / 2 then f
  else if 1 / 2 < r then f + 1
  else if 2 ∣ f then f else f + 1

/-- The relative order quantity of one account:
`round((percent / 100 * available) / marginPerContract)` — the three-line
quantity computation inside `_for_each_relative`. -/
def relativeQty (percent available marginPerContract : ℚ) : ℤ :=
  roundHalfEven (percent / 100 * available / marginPerContract)

/-- The accumulating loop of `_for_each_relative`. The parameter dict is
threaded through iterations because the source mutates one shared dict
(`params["orderQty"] = orderQty`). A failed margin fetch records that
account's error and skips it; Python float division by a zero
`marginPerContract` raises an uncaught `ZeroDivisionError`. -/
def for_each_relative_loop {R : Type} (reg : List Account)
    (call : Account → Params → Except PyErr R)
    (umGet : Account → Except PyErr UserMargin)
    (percent marginPerContract : ℚ) :
    List String → Params → List (String × Params) → List (Account × R) →
    List Account → List PyErr →
    List (String × Params) ×
      Except PyErr (List (Account × R) × List Account × List PyErr)
  | [], _, sent, result, excAccounts, excs =>
    (sent, .ok (result, excAccounts, excs))
  | name :: rest, params, sent, result, excAccounts, excs =>
    match accounts.get reg name with
    | none => (sent, .error (.typeError noneSubscriptMsg))
    | some account =>
      match account_available_margin reg umGet name with
      | .error e =>
        for_each_relative_loop reg call umGet percent marginPerContract rest
          params sent result (excAccounts ++ [account]) (excs ++ [e])
      | .ok available =>
        if marginPerContract = 0 then (sent, .error .zeroDivision)
        else
          let orderQty := relativeQty percent available marginPerContract
          let params := dictSet params "orderQty" (.int orderQty)
          match call account params with
          | .ok response =>
            for_each_relative_loop reg call umGet percent marginPerContract rest
              params (sent ++ [(name, params)])
              (result ++ [(account, response)]) excAccounts excs
          | .error e =>
            for_each_relative_loop reg call umGet percent marginPerContract rest
              params (sent ++ [(name, params)]) result
              (excAccounts ++ [account]) (excs ++ [e])

/-- Model of `_for_each_relative(accountNames, call, percent, marginPerContract,
**params)`: like `_for_each_account`, but fetching each account's
available margin and injecting the derived `orderQty` before each call. -/
def for_each_relative {R : Type} (reg : List Account)
    (call : Account → Params → Except PyErr R)
    (umGet : Account → Except PyErr UserMargin) (names : List String)
    (percent marginPerContract : ℚ) (params : Params) :
    List (String × Params) × Except PyExc (List (Account × R)) :=
  match for_each_relative_loop reg call umGet percent marginPerContract names
      params [] [] [] [] with
  | (sent, .error e) => (sent, .error (.base e))
  | (sent, .ok (result, excAccounts, excs)) =>
    if excs.isEmpty then (sent, .ok result)
    else (sent, .error (.multi excAccounts excs))

/-! ## Instrument economics (`instrument_margin_per_contract` of
`backend/core.py`)

The two instrument lookups (`instrument_contract_value`,
`instrument_is_inverse`, each a `/instrument` GET through
`_for_one_account`) are oracles; each lookup actually performed is
recorded as an event so that "the override bypasses the lookup" is a
statement about the event list. -/

/-- A network lookup performed by `instrument_margin_per_contract`. -/
inductive LookupEvent where
  | contractValue
  | isInverse
deriving DecidableEq, Repr

/-- Model of `instrument_margin_per_contract(accountName, symbol, price,
forceContractValue, forceInverse)`: margin for one contract. Lookup
failures are wrapped with the symbol for context; the inverse branch
divides by `price`, which in Python raises an uncaught
`ZeroDivisionError` when `price == 0`. -/
def instrument_margin_per_contract (symbol : String)
    (cvLookup : Except PyErr ℚ) (invLookup : Except PyErr Bool) (price : ℚ)
    (forceContractValue : Option ℚ) (forceInverse : Option Bool) :
    List LookupEvent × Except PyErr ℚ :=
  let cvStep : List LookupEvent × Except PyErr ℚ :=
    match forceContractValue with
    | none =>
      ([LookupEvent.contractValue],
       match cvLookup with
       | .error e =>
         .error (.bitmexCore ("Wasnt able to get " ++ symbol ++
           "s contract value: " ++ excMsg e))
       | .ok c => .ok c)
    | some c => ([], .ok c)
  match cvStep with
  | (ev1, .error e) => (ev1, .error e)
  | (ev1, .ok contractValue) =>
    let invStep : List LookupEvent × Except PyErr Bool :=
      match forceInverse with
      | none =>
        ([LookupEvent.isInverse],
         match invLookup with
         | .error e =>
           .error (.bitmexCore ("Wasnt able to find out if " ++ symbol ++
             " is inverse: " ++ excMsg e))
         | .ok i => .ok i)
      | some i => ([], .ok i)
    match invStep with
    | (ev2, .error e) => (ev1 ++ ev2, .error e)
    | (ev2, .ok inverse) =>
      if !inverse then (ev1 ++ ev2, .ok (price * contractValue))
      else if price = 0 then (ev1 ++ ev2, .error .zeroDivision)
      else (ev1 ++ ev2, .ok (1 / price * contractValue))

/-! ## Order composers (`order_limit`, `order_limit_relative`,
`order_limit_relative_post_only` of `backend/core.py`)

`post` is the `api.order_post` oracle. The composers return the ordered
trace of order posts actually sent and the overall outcome. -/

/-- The invalid time-in-force message — interpolating `trigger`, exactly
as the source does. -/
def tifErrMsg (trigger : String) : String :=
  trigger ++ " isnt a valid time in force. Choose from GoodTillCancel, " ++
  "ImmediateOrCancel and FillOrKill."

/-- The invalid trigger message. -/
def triggerErrMsg (trigger : String) : String :=
  trigger ++ " isnt a valid trigger. Choose from Mark, Last and Index."

/-- The wrapper message of `order_*_relative` around a failure computing
margin per contract. -/
def mpcWrapMsg (symbol detail : String) : String :=
  "Wasnt able to find out " ++ symbol ++ "s margin per contract: " ++ detail

/-- A `stopPrice` argument (`None` by default) as a parameter value. -/
def optRat : Option ℚ → PyVal
  | none => .null
  | some q => .rat q

/-- The primary-order parameter dict built by `order_limit`. -/
def order_limit_params (symbol : String) (quantity : ℤ) (limitPrice : ℚ)
    (sell hidden : Bool) (displayQty : ℤ) (timeInForce : String)
    (reduceOnly : Bool) : Params :=
  let execInst : List String := if reduceOnly then ["ReduceOnly"] else []
  let params : Params :=
    [("symbol", .str symbol), ("ordType", .str "Limit"),
     ("orderQty", .int quantity), ("price", .rat limitPrice),
     ("execInst", .str (String.intercalate ", " execInst)),
     ("timeInForce", .str timeInForce),
     ("side", .str (if sell then "Sell" else "Buy"))]
  if hidden then dictSet params "displayQty" (.int displayQty) else params

/-- The stop-loss mirror rewrite shared by the entry composers: drop
`price`, switch to a `Stop` order at `stopPrice`, flip the side, and (for
a valid trigger) set `execInst` to `ReduceOnly` plus the trigger price
flag. -/
def stop_loss_params (params : Params) (stopPrice : Option ℚ)
    (trigger : String) : Params :=
  let params := dictPop params "price"
  let params := dictSet params "ordType" (.str "Stop")
  let params := dictSet params "stopPx" (optRat stopPrice)
  let params := dictSet params "side"
    (.str (if dictGet params "side" = some (.str "Sell") then "Buy" else "Sell"))
  dictSet params "execInst"
    (.str (String.intercalate ", " ["ReduceOnly", trigger ++ "Price"]))

/-- Model of `order_limit(accountNames, symbol, quantity, limitPrice, sell, hidden,
displayQty, timeInForce, reduceOnly, stopLoss, stopPrice, trigger)`: send
a limit order for each account, then (if `stopLoss`) mirroring stop
orders. Faithful to the source, the trigger is validated only inside the
stop-loss block, after the primary fan-out has already run. -/
def order_limit (reg : List Account)
    (post : Account → Params → Except PyErr Params) (names : List String)
    (symbol : String) (quantity : ℤ) (limitPrice : ℚ) (sell hidden : Bool)
    (displayQty : ℤ) (timeInForce : String) (reduceOnly stopLoss : Bool)
    (stopPrice : Option ℚ) (trigger : String) :
    List (String × Params) × Except PyExc Unit :=
  if timeInForce ∉ (["GoodTillCancel", "ImmediateOrCancel", "FillOrKill"] :
      List String) then
    ([], .error (.base (.bitmexCore (tifErrMsg trigger))))
  else
    let params := order_limit_params symbol quantity limitPrice sell hidden
      displayQty timeInForce reduceOnly
    match for_each_account reg post names params with
    | (sent1, .error e) => (sent1, .error e)
    | (sent1, .ok _) =>
      if stopLoss then
        if trigger ∈ (["Mark", "Last", "Index"] : List String) then
          match for_each_account reg post names
              (stop_loss_params params stopPrice trigger) with
          | (sent2, .error e) => (sent1 ++ sent2, .error e)
          | (sent2, .ok _) => (sent1 ++ sent2, .ok ())
        else
          (sent1, .error (.base (.bitmexCore (triggerErrMsg trigger))))
      else (sent1, .ok ())

/-- The stop-loss loop of the relative composers: for each successful
primary response, read back that account's placed `orderQty` from the
response, inject it, and send the mirror through `_for_one_account`
(whose failure aborts the loop, uncaught). The dict is threaded because
the source mutates one shared `params`. -/
def relative_stop_loss_loop (reg : List Account)
    (post : Account → Params → Except PyErr Params) :
    List (Account × Params) → Params →
    List (String × Params) × Except PyExc Unit
  | [], _ => ([], .ok ())
  | (account, response) :: rest, params =>
    match dictGet response "orderQty" with
    | none => ([], .error (.base (.keyError "orderQty")))
    | some qty =>
      let params := dictSet params "orderQty" qty
      match for_one_account_traced reg post account.name params with
      | (sentHere, .error e) => (sentHere, .error (.base e))
      | (sentHere, .ok _) =>
        match relative_stop_loss_loop reg post rest params with
        | (sentRest, out) => (sentHere ++ sentRest, out)

/-- Model of `order_limit_relative(...)`: limit order for each account with
relative quantity, with optional stop-loss mirroring. The margin per
contract is computed once, from `accountNames[0]` — on an empty name
list, that subscript raises `IndexError`, which the enclosing `try`
catches and wraps into a `BitmexCoreException`. -/
def order_limit_relative (reg : List Account)
    (post : Account → Params → Except PyErr Params)
    (umGet : Account → Except PyErr UserMargin) (cvLookup : Except PyErr ℚ)
    (invLookup : Except PyErr Bool) (names : List String) (symbol : String)
    (percent limitPrice : ℚ) (sell hidden : Bool) (displayQty : ℤ)
    (timeInForce : String) (reduceOnly : Bool) (forceContractValue : Option ℚ)
    (forceInverse : Option Bool) (stopLoss : Bool) (stopPrice : Option ℚ)
    (trigger : String) : List (String × Params) × Except PyExc Unit :=
  if timeInForce ∉ (["GoodTillCancel", "ImmediateOrCancel", "FillOrKill"] :
      List String) then
    ([], .error (.base (.bitmexCore (tifErrMsg trigger))))
  else
    match names with
    | [] =>
      ([], .error (.base (.bitmexCore
        (mpcWrapMsg symbol "list index out of range"))))
    | _ :: _ =>
      match (instrument_margin_per_contract symbol cvLookup invLookup
          limitPrice forceContractValue forceInverse).2 with
      | .error e =>
        ([], .error (.base (.bitmexCore (mpcWrapMsg symbol (excMsg e)))))
      | .ok marginPerContract =>
        let execInst : List String := if reduceOnly then ["ReduceOnly"] else []
        let params : Params :=
          [("symbol", .str symbol), ("ordType", .str "Limit"),
           ("price", .rat limitPrice),
           ("execInst", .str (String.intercalate ", " execInst)),
           ("timeInForce", .str timeInForce),
           ("side", .str (if sell then "Sell" else "Buy"))]
        let params := if hidden then dictSet params "displayQty" (.int displayQty)
          else params
        match for_each_relative reg post umGet names percent marginPerContract
            params with
        | (sent1, .error e) => (sent1, .error e)
        | (sent1, .ok responses) =>
          if stopLoss then
            if trigger ∈ (["Mark", "Last", "Index"] : List String) then
              match relative_stop_loss_loop reg post responses
                  (stop_loss_params params stopPrice trigger) with
              | (sent2, out) => (sent1 ++ sent2, out)
            else
              (sent1, .error (.base (.bitmexCore (triggerErrMsg trigger))))
          else (sent1, .ok ())

/-- Model of `order_limit_relative_post_only(...)`: the post-only variant — no
time-in-force, `ParticipateDoNotInitiate` always in the primary
`execInst`; otherwise identical, including the stop-loss mirroring that
reads each account's placed `orderQty` back from its primary response. -/
def order_limit_relative_post_only (reg : List Account)
    (post : Account → Params → Except PyErr Params)
    (umGet : Account → Except PyErr UserMargin) (cvLookup : Except PyErr ℚ)
    (invLookup : Except PyErr Bool) (names : List String) (symbol : String)
    (percent limitPrice : ℚ) (sell reduceOnly : Bool)
    (forceContractValue : Option ℚ) (forceInverse : Option Bool)
    (stopLoss : Bool) (stopPrice : Option ℚ) (trigger : String) :
    List (String × Params) × Except PyExc Unit :=
  match names with
  | [] =>
    ([], .error (.base (.bitmexCore
      (mpcWrapMsg symbol "list index out of range"))))
  | _ :: _ =>
    match (instrument_margin_per_contract symbol cvLookup invLookup limitPrice
        forceContractValue forceInverse).2 with
    | .error e =>
      ([], .error (.base (.bitmexCore (mpcWrapMsg symbol (excMsg e)))))
    | .ok marginPerContract =>
      let execInst : List String :=
        ["ParticipateDoNotInitiate"] ++ (if reduceOnly then ["ReduceOnly"] else [])
      let params : Params :=
        [("symbol", .str symbol), ("ordType", .str "Limit"),
         ("price", .rat limitPrice),
         ("execInst", .str (String.intercalate ", " execInst)),
         ("side", .str (if sell then "Sell" else "Buy"))]
      match for_each_relative reg post umGet names percent marginPerContract
          params with
      | (sent1, .error e) => (sent1, .error e)
      | (sent1, .ok responses) =>
        if stopLoss then
          if trigger ∈ (["Mark", "Last", "Index"] : List String) then
            match relative_stop_loss_loop reg post responses
                (stop_loss_params params stopPrice trigger) with
            | (sent2, out) => (sent1 ++ sent2, out)
          else
            (sent1, .error (.base (.bitmexCore (triggerErrMsg trigger))))
        else (sent1, .ok ())

/-! ## Characterizations and concrete instances used by the theorems -/

/-- The per-name successes of a fan-out: for each name, the account and
response when the name resolves and the call succeeds. -/
def fanoutSuccesses {R : Type} (reg : List Account)
    (call : Account → Params → Except PyErr R) (params : Params)
    (names : List String) : List (Account × R) :=
  names.filterMap (fun n => (accounts.get reg n).bind (fun a =>
    match call a params with
    | .ok r => some (a, r)
    | .error _ => none))

/-- The per-name failures of a fan-out: for each name that resolves but
whose call fails, the account and its exception. -/
def fanoutFailures {R : Type} (reg : List Account)
    (call : Account → Params → Except PyErr R) (params : Params)
    (names : List String) : List (Account × PyErr) :=
  names.filterMap (fun n => (accounts.get reg n).bind (fun a =>
    match call a params with
    | .ok _ => none
    | .error e => some (a, e)))

/-- The scaled available margin a relative fan-out would obtain for one
name: the account's `availableMargin` response field times `1e-8`, when
the name resolves and the margin fetch succeeds. -/
def marginOf (reg : List Account) (umGet : Account → Except PyErr UserMargin)
    (n : String) : Option ℚ :=
  match accounts.get reg n with
  | none => none
  | some a =>
    match umGet a with
    | .ok um => some ((um.availableMargin : ℚ) * (1 / 100000000))
    | .error _ => none

/-- Concrete account for scenarios. -/
def acct1 : Account := ⟨"acc1", "key1", "secret1", "https://h1/"⟩

/-- Concrete account for scenarios. -/
def acct2 : Account := ⟨"acc2", "key2", "secret2", "https://h2/"⟩

/-- Concrete account for scenarios. -/
def acctC : Account := ⟨"accC", "keyC", "secretC", "https://hC/"⟩

/-- A registry holding `acct1` and `acct2`. -/
def reg12 : List Account := [acct1, acct2]

/-- A registry holding `acct1` and `acctC` (and notably not `accB`). -/
def regAC : List Account := [acct1, acctC]

/-- A concrete parameter dict. -/
def demoParams : Params := [("symbol", .str "XBTUSD")]

/-- An order-post oracle that succeeds except for `acctC`. -/
def postAC : Account → Params → Except PyErr Params := fun a _ =>
  if a.name == "accC" then
    .error (.bitmexApi "503 ServiceUnavailable: maintenance")
  else .ok [("orderID", .str "o1")]

/-- A user-margin oracle: 1 BTC (in satoshis) for `acct1`, 2 BTC for the
other account. -/
def um12 : Account → Except PyErr UserMargin := fun a =>
  .ok ⟨if a.name == "acc1" then 100000000 else 200000000⟩

/-- An order-post oracle whose response reports placed quantity `q1` for
`acct1` and `q2` for the other account. -/
def postEcho (q1 q2 : ℤ) : Account → Params → Except PyErr Params :=
  fun a _ => .ok [("orderQty", .int (if a.name == "acc1" then q1 else q2))]

/-- An order-post oracle: `acct1` succeeds reporting quantity `q1`, any
other account fails with `e`. -/
def postSndFails (q1 : ℤ) (e : PyErr) : Account → Params → Except PyErr Params :=
  fun a _ =>
    if a.name == "acc1" then .ok [("orderQty", .int q1)] else .error e

/-- An order-post oracle that always succeeds. -/
def postOk : Account → Params → Except PyErr Params :=
  fun _ _ => .ok [("ordStatus", .str "New")]

/-- An HTTP oracle for cases where no request must be issued. -/
def httpUnreachable : HttpReq → Except PyErr HttpResp :=
  fun _ => .error (.bitmexApi "unused")

/-- An instrument contract-value oracle for cases where the lookup must
not be consulted. -/
def cvUnused : Except PyErr ℚ := .error (.bitmexApi "lookup not expected")

/-- An instrument inverse-flag oracle for cases where the lookup must not
be consulted. -/
def invUnused : Except PyErr Bool := .error (.bitmexApi "lookup not expected")

/-- The claim C3 / C10 relative post-only scenario: a relative post-only
limit sell with stop loss at trigger `Last` across the given names, with
forced contract value `1/1000` and forced non-inverse at limit price 1,
`percent = 10`. -/
def c3Scenario (post : Account → Params → Except PyErr Params)
    (names : List String) : List (String × Params) × Except PyExc Unit :=
  order_limit_relative_post_only reg12 post um12 cvUnused invUnused names
    "XBTUSD" 10 1 true false (some (1 / 1000)) (some false) true
    (some (19 / 20)) "Last"

/-! ## Helper lemmas -/

/-- Whether a character is a lowercase hex digit. -/
def isLowerHexChar (c : Char) : Bool :=
  ("0123456789abcdef".toList).contains c

/-- Whether every character of a string is a lowercase hex digit. -/
def isLowerHex (s : String) : Bool := s.data.all isLowerHexChar

theorem hexChar_isLowerHex : ∀ n, n < 16 → isLowerHexChar (hexChar n) = true := by
  decide

theorem isLowerHex_hexDigest (bs : List Nat) :
    isLowerHex (hexDigest bs) = true := by
  unfold isLowerHex hexDigest
  induction bs with
  | nil => rfl
  | cons b t ih =>
    simp only [hexBytesChars, List.all_cons, Bool.and_eq_true]
    refine ⟨hexChar_isLowerHex _ (by omega), hexChar_isLowerHex _ (by omega), ?_⟩
    simpa using ih

theorem toBEBytes_length (n v : Nat) : (toBEBytes n v).length = n := by
  simp [toBEBytes]

theorem hexBytesChars_length (bs : List Nat) :
    (hexBytesChars bs).length = 2 * bs.length := by
  induction bs with
  | nil => rfl
  | cons b t ih => simp [hexBytesChars, ih]; ring

theorem hexDigest_length (bs : List Nat) :
    (hexDigest bs).length = 2 * bs.length := by
  simpa [hexDigest, String.length] using hexBytesChars_length bs

theorem sha256_length (m : List Nat) : (sha256 m).length = 32 := by
  simp [sha256, toBEBytes_length]

theorem hmacSha256_length (k m : List Nat) : (hmacSha256 k m).length = 32 := by
  simp [hmacSha256, sha256_length]

theorem dictGet_dictSet (d : Params) (k : String) (v : PyVal) :
    dictGet (dictSet d k v) k = some v := by
  unfold dictGet dictSet
  by_cases h : containsKey d k
  · rw [if_pos h, List.find?_map]
    have hpf : ((fun kv => kv.1 == k) ∘
        (fun kv : String × PyVal => if kv.1 == k then (k, v) else kv)) =
        fun kv : String × PyVal => kv.1 == k := by
      funext kv
      by_cases hk : kv.1 = k
      · simp [hk]
      · simp [Function.comp, hk]
    rw [hpf]
    have hs : (d.find? (fun kv => kv.1 == k)).isSome := by
      rw [List.find?_isSome]
      obtain ⟨kv0, hmem, hp⟩ := List.any_eq_true.mp h
      exact ⟨kv0, hmem, hp⟩
    obtain ⟨kv1, hfind⟩ := Option.isSome_iff_exists.mp hs
    have hp1 := List.find?_some hfind
    have hk1 : kv1.1 = k := by simpa using hp1
    rw [hfind]
    simp [hk1]
  · rw [if_neg h, List.find?_append]
    have h1 : d.find? (fun kv => kv.1 == k) = none := by
      apply List.find?_eq_none.mpr
      intro x hx hpx
      exact h (List.any_eq_true.mpr ⟨x, hx, hpx⟩)
    simp [h1]

theorem for_each_account_loop_spec {R : Type} (reg : List Account)
    (call : Account → Params → Except PyErr R) (params : Params) :
    ∀ (names : List String) (sent : List (String × Params))
      (result : List (Account × R)) (ea : List Account) (ex : List PyErr),
      (∀ n ∈ names, (accounts.get reg n).isSome) →
      for_each_account_loop reg call params names sent result ea ex =
        (sent ++ names.map (fun n => (n, params)),
         .ok (result ++ fanoutSuccesses reg call params names,
              ea ++ (fanoutFailures reg call params names).map Prod.fst,
              ex ++ (fanoutFailures reg call params names).map Prod.snd))
  | [], sent, result, ea, ex, _ => by
    simp [for_each_account_loop, fanoutSuccesses, fanoutFailures]
  | n :: rest, sent, result, ea, ex, h => by
    obtain ⟨a, ha⟩ := Option.isSome_iff_exists.mp (h n (by simp))
    have hrest : ∀ m ∈ rest, (accounts.get reg m).isSome := fun m hm =>
      h m (by simp [hm])
    cases hc : call a params with
    | ok r =>
      simp only [for_each_account_loop, ha, hc]
      rw [for_each_account_loop_spec reg call params rest _ _ _ _ hrest]
      simp [fanoutSuccesses, fanoutFailures, ha, hc]
    | error e =>
      simp only [for_each_account_loop, ha, hc]
      rw [for_each_account_loop_spec reg call params rest _ _ _ _ hrest]
      simp [fanoutSuccesses, fanoutFailures, ha, hc]

/-! ## Claim theorems -/

/-- Claim C2 (code bug, actual behavior): `_generate_headers` returns
exactly the header set api-key, api-expires, api-signature, content-type
with content-type `application/json`, but sets `api-expires` to
`now + 5` for EVERY `life` — the `life` argument is ignored (the headers
are identical to those generated with `life = 5`), contradicting both the
claim (`expires = now() + life`) and the docstring of the `life`
parameter. At the failing input `life = 10`, `now = 1000` the header
reads `1005`, not `1010`. -/
theorem C2_headers_expiry (now life : ℤ) (key secret verb : String)
    (u : ParsedURL) (json : String) :
    (generate_headers now life key secret verb u json).map Prod.fst =
      ["api-key", "api-expires", "api-signature", "content-type"]
    ∧ ((generate_headers now life key secret verb u json).find?
        (fun kv => kv.1 == "api-expires")).map Prod.snd =
        some (toString (now + 5))
    ∧ generate_headers now life key secret verb u json =
        generate_headers now 5 key secret verb u json
    ∧ ((generate_headers now life key secret verb u json).find?
        (fun kv => kv.1 == "content-type")).map Prod.snd =
        some "application/json"
    ∧ ((generate_headers 1000 10 key secret verb u json).find?
        (fun kv => kv.1 == "api-expires")).map Prod.snd = some "1005"
    ∧ "1005" ≠ "1010" :=
  ⟨rfl, rfl, rfl, rfl, rfl, by decide⟩

/-- Claim C9 (counterexample): `instrument_margin_per_contract` at
`price = 0` on the inverse branch does not fail with a typed
`InvalidPrice` domain error — it raises an untyped `ZeroDivisionError`
(no `Bitmex*` exception). -/
theorem C9_counterexample :
    (instrument_margin_per_contract "XBTUSD" cvUnused invUnused 0 (some 1)
      (some true)).2 = .error .zeroDivision
    ∧ PyErr.isBitmexTyped .zeroDivision = false :=
  ⟨rfl, rfl⟩

/-- Claim C9 (amended): for every call of `instrument_margin_per_contract`
with `price = 0` on the inverse branch — whether the inverse flag is
forced or looked up — the operation fails with the uncaught, untyped
`ZeroDivisionError` of Python float division, not with a typed domain
error. -/
theorem C9_amended_zero_division (symbol : String) (cvLookup : Except PyErr ℚ)
    (invLookup : Except PyErr Bool) (c : ℚ) :
    (instrument_margin_per_contract symbol cvLookup invLookup 0 (some c)
      (some true)).2 = .error .zeroDivision
    ∧ (instrument_margin_per_contract symbol (.ok c) (.ok true) 0 none
      none).2 = .error .zeroDivision := by
  constructor <;> simp [instrument_margin_per_contract]

/-- Claim C10 (counterexample): calling a relative composer with an empty
account-name list does not fail with a plain out-of-bounds indexing
error: the `IndexError` from `accountNames[0]` is caught and re-raised as
a typed `BitmexCoreException` wrapping the message. -/
theorem C10_counterexample :
    (c3Scenario postOk []).2 =
      .error (.base (.bitmexCore (mpcWrapMsg "XBTUSD" "list index out of range")))
    ∧ PyErr.isBitmexTyped
        (.bitmexCore (mpcWrapMsg "XBTUSD" "list index out of range")) = true
    ∧ PyErr.bitmexCore (mpcWrapMsg "XBTUSD" "list index out of range") ≠
        PyErr.indexError "list index out of range" :=
  ⟨rfl, rfl, by decide⟩

/-- Claim C10 (amended): a relative composer called with an empty
account-name list fails before any request is issued — but with a typed
`BitmexCoreException` wrapping the `IndexError` from `accountNames[0]`
("Wasnt able to find out <symbol>s margin per contract: list index out of
range"), not with a plain indexing error; the fixed-quantity fan-out over
an empty name list returns an empty result list with no error. -/
theorem C10_amended_empty_names {R : Type} (reg : List Account)
    (post : Account → Params → Except PyErr Params)
    (umGet : Account → Except PyErr UserMargin) (cvLookup : Except PyErr ℚ)
    (invLookup : Except PyErr Bool) (symbol : String)
    (percent limitPrice : ℚ) (sell hidden : Bool) (displayQty : ℤ)
    (reduceOnly : Bool) (fcv : Option ℚ) (fi : Option Bool) (stopLoss : Bool)
    (stopPrice : Option ℚ) (trigger : String)
    (call : Account → Params → Except PyErr R) (params : Params) :
    order_limit_relative reg post umGet cvLookup invLookup [] symbol percent
        limitPrice sell hidden displayQty "GoodTillCancel" reduceOnly fcv fi
        stopLoss stopPrice trigger =
      ([], .error (.base (.bitmexCore
        (mpcWrapMsg symbol "list index out of range"))))
    ∧ order_limit_relative_post_only reg post umGet cvLookup invLookup []
        symbol percent limitPrice sell reduceOnly fcv fi stopLoss stopPrice
        trigger =
      ([], .error (.base (.bitmexCore
        (mpcWrapMsg symbol "list index out of range"))))
    ∧ for_each_account reg call [] params = ([], .ok []) :=
  ⟨rfl, rfl, rfl⟩

/-- Claim C1 (counterexample): over names `[acc1, accB, accC]` where
`accB` is not in the registry and `accC`'s API call would fail, the
fan-out does not record an account-less error and continue: it aborts at
`accB` with the uncaught `TypeError` from subscripting the `None` that
`accounts.get` returned — `accC` is never attempted, `acc1`'s successful
result is discarded, and no aggregate error is raised. -/
theorem C1_counterexample :
    for_each_account regAC postAC ["acc1", "accB", "accC"] demoParams =
      ([("acc1", demoParams)], .error (.base (.typeError noneSubscriptMsg)))
    ∧ PyExc.isMulti (.base (.typeError noneSubscriptMsg)) = false :=
  ⟨rfl, rfl⟩

/-- Claim C1 (amended): when every name in the list resolves in the
registry, `_for_each_account` processes every entry and never aborts
early: each resolvable name's call is attempted in input order (the trace
lists every name), a name whose API call fails is recorded as a
per-account error while iteration continues, and after all names are
processed the call returns the successful results when nothing failed
and otherwise raises one aggregate `BitmexCoreMultiException` carrying
exactly the failed accounts and their exceptions — the successful
results are not returned in that case. (A name that fails to resolve
instead crashes the fan-out with an uncaught `TypeError`; see the
counterexample.) -/
theorem C1_amended_fanout {R : Type} (reg : List Account)
    (call : Account → Params → Except PyErr R) (names : List String)
    (params : Params) (h : ∀ n ∈ names, (accounts.get reg n).isSome) :
    for_each_account reg call names params =
      (names.map (fun n => (n, params)),
       if fanoutFailures reg call params names = [] then
         .ok (fanoutSuccesses reg call params names)
       else
         .error (.multi ((fanoutFailures reg call params names).map Prod.fst)
           ((fanoutFailures reg call params names).map Prod.snd))) := by
  unfold for_each_account
  rw [for_each_account_loop_spec reg call params names [] [] [] [] h]
  simp only [List.nil_append]
  by_cases hf : fanoutFailures reg call params names = []
  · simp [hf]
  · have hne : ((fanoutFailures reg call params names).map Prod.snd).isEmpty
        = false := by
      simp [List.isEmpty_iff, hf]
    simp [hf, hne]

/-- Claim C1 (witness): the amended theorem applied to the two-account
registry with an always-succeeding call. -/
theorem C1_amended_fanout_witness :
    for_each_account reg12 postOk ["acc1", "acc2"] demoParams =
      (["acc1", "acc2"].map (fun n => (n, demoParams)),
       if fanoutFailures reg12 postOk demoParams ["acc1", "acc2"] = [] then
         .ok (fanoutSuccesses reg12 postOk demoParams ["acc1", "acc2"])
       else
         .error (.multi
           ((fanoutFailures reg12 postOk demoParams ["acc1", "acc2"]).map
             Prod.fst)
           ((fanoutFailures reg12 postOk demoParams ["acc1", "acc2"]).map
             Prod.snd))) :=
  C1_amended_fanout reg12 postOk ["acc1", "acc2"] demoParams (by decide)

/-- Claim C3 (counterexample): in the two-account relative post-only
limit-sell scenario with `stopLoss = True` where account 1's primary
succeeds reporting `orderQty = 50` and account 2's primary fails, account
1 does NOT receive a mirrored stop order: the aggregate error of the
primary fan-out propagates before the stop-loss stage, so the trace
contains no `Stop` order at all. -/
theorem C3_counterexample :
    (c3Scenario (postSndFails 50 (.bitmexApi "overloaded"))
      ["acc1", "acc2"]).2 =
      .error (.multi [acct2] [.bitmexApi "overloaded"])
    ∧ ((c3Scenario (postSndFails 50 (.bitmexApi "overloaded"))
        ["acc1", "acc2"]).1.filter
        (fun sp => dictGet sp.2 "ordType" == some (.str "Stop"))) = [] := by
  constructor <;> with_unfolding_all rfl

/-- Claim C3 (amended): in the relative post-only limit-sell scenario
with `stopLoss = True`, when any account's primary order fails the
aggregate error propagates before the stop-loss stage and no account
receives a mirrored stop order; when all primaries succeed, each account
receives a mirrored `Stop` order whose `orderQty` is read back from that
account's own primary response (here the arbitrary reported quantities
`q1`, `q2` — not the recomputed relative quantities 100, 200 of the
primaries), with opposite side `Buy` and `execInst` containing
`ReduceOnly` and the trigger price type `LastPrice`. -/
theorem C3_amended_mirror (q1 q2 : ℤ) (e : PyErr) :
    c3Scenario (postSndFails q1 e) ["acc1", "acc2"] =
      ([("acc1",
         [("symbol", .str "XBTUSD"), ("ordType", .str "Limit"),
          ("price", .rat 1), ("execInst", .str "ParticipateDoNotInitiate"),
          ("side", .str "Sell"), ("orderQty", .int 100)]),
        ("acc2",
         [("symbol", .str "XBTUSD"), ("ordType", .str "Limit"),
          ("price", .rat 1), ("execInst", .str "ParticipateDoNotInitiate"),
          ("side", .str "Sell"), ("orderQty", .int 200)])],
       .error (.multi [acct2] [e]))
    ∧ c3Scenario (postEcho q1 q2) ["acc1", "acc2"] =
      ([("acc1",
         [("symbol", .str "XBTUSD"), ("ordType", .str "Limit"),
          ("price", .rat 1), ("execInst", .str "ParticipateDoNotInitiate"),
          ("side", .str "Sell"), ("orderQty", .int 100)]),
        ("acc2",
         [("symbol", .str "XBTUSD"), ("ordType", .str "Limit"),
          ("price", .rat 1), ("execInst", .str "ParticipateDoNotInitiate"),
          ("side", .str "Sell"), ("orderQty", .int 200)]),
        ("acc1",
         [("symbol", .str "XBTUSD"), ("ordType", .str "Stop"),
          ("execInst", .str "ReduceOnly, LastPrice"), ("side", .str "Buy"),
          ("stopPx", .rat (19 / 20)), ("orderQty", .int q1)]),
        ("acc2",
         [("symbol", .str "XBTUSD"), ("ordType", .str "Stop"),
          ("execInst", .str "ReduceOnly, LastPrice"), ("side", .str "Buy"),
          ("stopPx", .rat (19 / 20)), ("orderQty", .int q2)])],
       .ok ()) := by
  constructor <;> with_unfolding_all rfl

theorem for_each_relative_loop_trace {R : Type} (reg : List Account)
    (call : Account → Params → Except PyErr R)
    (umGet : Account → Except PyErr UserMargin) (percent mpc : ℚ)
    (hmpc : mpc ≠ 0) :
    ∀ (names : List String) (params : Params) (sent : List (String × Params))
      (result : List (Account × R)) (ea : List Account) (ex : List PyErr),
      (∀ n ∈ names, (marginOf reg umGet n).isSome) →
      (for_each_relative_loop reg call umGet percent mpc names params sent
        result ea ex).1.map (fun sp => (sp.1, dictGet sp.2 "orderQty")) =
      sent.map (fun sp => (sp.1, dictGet sp.2 "orderQty")) ++
        names.map (fun n => (n, some (PyVal.int
          (relativeQty percent ((marginOf reg umGet n).getD 0) mpc))))
  | [], params, sent, result, ea, ex, _ => by
    simp [for_each_relative_loop]
  | n :: rest, params, sent, result, ea, ex, h => by
    have hn := h n (by simp)
    cases hg : accounts.get reg n with
    | none => simp [marginOf, hg] at hn
    | some a =>
      cases hu : umGet a with
      | error e => simp [marginOf, hg, hu] at hn
      | ok um =>
        have hrest : ∀ m ∈ rest, (marginOf reg umGet m).isSome := fun m hm =>
          h m (by simp [hm])
        simp only [for_each_relative_loop, hg, account_available_margin,
          for_one_account_traced, hu]
        rw [if_neg hmpc]
        cases hc : call a (dictSet params "orderQty" (.int (relativeQty percent
            ((um.availableMargin : ℚ) * (1 / 100000000)) mpc))) with
        | ok r =>
          rw [for_each_relative_loop_trace reg call umGet percent mpc hmpc rest
            _ _ _ _ _ hrest]
          simp [marginOf, hg, hu, dictGet_dictSet]
        | error e =>
          rw [for_each_relative_loop_trace reg call umGet percent mpc hmpc rest
            _ _ _ _ _ hrest]
          simp [marginOf, hg, hu, dictGet_dictSet]

/-- Claim C4: for every account in a relative fan-out
(`_for_each_relative`), before the API call the engine fetches that
account's `availableMargin` from the user-margin endpoint, scales it by
`1e-8` into the base unit (`marginOf`), computes
`orderQty = round((percent / 100 * availableMargin) / marginPerContract)`
with round-half-to-even (`relativeQty` / `roundHalfEven`), and injects it
into `params["orderQty"]`: every call actually sent carries exactly that
quantity for its own account, in input order. -/
theorem C4_relative_qty {R : Type} (reg : List Account)
    (call : Account → Params → Except PyErr R)
    (umGet : Account → Except PyErr UserMargin) (names : List String)
    (percent mpc : ℚ) (params : Params)
    (h : ∀ n ∈ names, (marginOf reg umGet n).isSome) (hmpc : mpc ≠ 0) :
    (for_each_relative reg call umGet names percent mpc params).1.map
        (fun sp => (sp.1, dictGet sp.2 "orderQty")) =
      names.map (fun n => (n, some (PyVal.int
        (relativeQty percent ((marginOf reg umGet n).getD 0) mpc)))) := by
  unfold for_each_relative
  rcases hl : for_each_relative_loop reg call umGet percent mpc names params
    [] [] [] [] with ⟨sent, out⟩
  have ht := for_each_relative_loop_trace reg call umGet percent mpc hmpc
    names params [] [] [] [] h
  rw [hl] at ht
  cases out with
  | error e => simpa using ht
  | ok r =>
    rcases r with ⟨res, ea2, ex2⟩
    by_cases he : ex2.isEmpty <;> simp [he] <;> simpa using ht

/-- Claim C4 (witness): with `percent = 10`,
`marginPerContract = 0.001` and available margins of 1 BTC and 2 BTC,
the two accounts are sent `orderQty = 100` and `orderQty = 200`
(matching `round((10/100 * 1.0) / 0.001) = 100`). -/
theorem C4_relative_qty_witness :
    (for_each_relative reg12 postOk um12 ["acc1", "acc2"] 10 (1 / 1000)
        demoParams).1.map (fun sp => (sp.1, dictGet sp.2 "orderQty")) =
      [("acc1", some (PyVal.int 100)), ("acc2", some (PyVal.int 200))] :=
  (C4_relative_qty reg12 postOk um12 ["acc1", "acc2"] 10 (1 / 1000)
    demoParams (by decide) (by with_unfolding_all decide)).trans
    (by with_unfolding_all rfl)

/-- Claim C5: `instrument_margin_per_contract` returns
`price * contractValue` when the instrument is not inverse and
`(1 / price) * contractValue` when it is inverse; and whenever
`forceContractValue` (respectively `forceInverse`) is supplied, the
corresponding instrument lookup is never performed — with both overrides
supplied the lookup trace is empty and only the supplied values are
used. -/
theorem C5_margin_override (symbol : String) (cvLookup : Except PyErr ℚ)
    (invLookup : Except PyErr Bool) (price c : ℚ) (i : Bool)
    (fcv : Option ℚ) (fi : Option Bool) :
    (instrument_margin_per_contract symbol cvLookup invLookup price (some c)
      (some i)).1 = []
    ∧ (i = false →
       (instrument_margin_per_contract symbol cvLookup invLookup price (some c)
         (some i)).2 = .ok (price * c))
    ∧ (i = true → price ≠ 0 →
       (instrument_margin_per_contract symbol cvLookup invLookup price (some c)
         (some i)).2 = .ok (1 / price * c))
    ∧ LookupEvent.contractValue ∉
        (instrument_margin_per_contract symbol cvLookup invLookup price (some c)
          fi).1
    ∧ LookupEvent.isInverse ∉
        (instrument_margin_per_contract symbol cvLookup invLookup price fcv
          (some i)).1 := by
  refine ⟨?_, ?_, ?_, ?_, ?_⟩
  · cases i <;> by_cases hp : price = 0 <;>
      simp [instrument_margin_per_contract, hp]
  · rintro rfl
    simp [instrument_margin_per_contract]
  · rintro rfl hp
    simp [instrument_margin_per_contract, hp]
  · cases fi with
    | none =>
      rcases invLookup with e | j
      · simp [instrument_margin_per_contract]
      · cases j <;> by_cases hp : price = 0 <;>
          simp [instrument_margin_per_contract, hp]
    | some j =>
      cases j <;> by_cases hp : price = 0 <;>
        simp [instrument_margin_per_contract, hp]
  · rcases fcv with _ | c2
    · rcases cvLookup with e | c2
      · simp [instrument_margin_per_contract]
      · cases i <;> by_cases hp : price = 0 <;>
          simp [instrument_margin_per_contract, hp]
    · cases i <;> by_cases hp : price = 0 <;>
        simp [instrument_margin_per_contract, hp]

/-- Claim C5 (witness): for a forced inverse instrument with contract
value 3 at price 2 the result is `1/2 * 3` with no lookup performed. -/
theorem C5_margin_override_witness :
    (instrument_margin_per_contract "XBTUSD" cvUnused invUnused 2 (some 3)
      (some true)).1 = []
    ∧ (instrument_margin_per_contract "XBTUSD" cvUnused invUnused 2 (some 3)
      (some true)).2 = .ok (1 / 2 * 3) := by
  have h := C5_margin_override "XBTUSD" cvUnused invUnused 2 3 true none none
  exact ⟨h.1, h.2.2.1 rfl (by norm_num)⟩

/-- Claim C6: for every secret, verb, URL, expiry and JSON body,
`_generate_signature` returns the HMAC-SHA256, keyed by the UTF-8 bytes
of the secret, of the concatenation
`verb + urlPath (+ "?" + rawQueryString when a query is present) +
str(expiresUnix) + jsonBody`, rendered as a 64-character string whose
characters are all lowercase hex digits. -/
theorem C6_signature_scheme (secret verb : String) (u : ParsedURL)
    (json : String) (expires : ℤ) :
    generate_signature secret verb u json expires =
      hexDigest (hmacSha256 (strBytes secret)
        (strBytes (verb ++ (if u.query = "" then u.path
          else u.path ++ "?" ++ u.query) ++ toString expires ++ json)))
    ∧ isLowerHex (generate_signature secret verb u json expires) = true
    ∧ (generate_signature secret verb u json expires).length = 64 := by
  refine ⟨?_, isLowerHex_hexDigest _, ?_⟩
  · unfold generate_signature signaturePath
    by_cases h : u.query = "" <;> simp [h]
  · unfold generate_signature
    rw [hexDigest_length, hmacSha256_length]

/-- Claim C7 (counterexample): `order_limit` with a valid time-in-force,
`stopLoss = True` and the invalid trigger `"Bogus"` raises the trigger
validation error only AFTER the primary fan-out: the network trace
already contains the primary order post when the error is raised. -/
theorem C7_counterexample :
    (order_limit reg12 postOk ["acc1"] "XBTUSD" 10 100 false false 0
      "GoodTillCancel" false true (some 90) "Bogus").1 =
      [("acc1", order_limit_params "XBTUSD" 10 100 false false 0
        "GoodTillCancel" false)]
    ∧ (order_limit reg12 postOk ["acc1"] "XBTUSD" 10 100 false false 0
      "GoodTillCancel" false true (some 90) "Bogus").2 =
      .error (.base (.bitmexCore (triggerErrMsg "Bogus"))) := by
  constructor <;> with_unfolding_all rfl

/-- Claim C7 (amended): an invalid `timeInForce` is raised immediately,
before any network call of the composer invocation; but an invalid
stop-loss `trigger` is validated only inside the stop-loss block, after
the primary fan-out has completed — the composer then raises the trigger
validation error with exactly the primary orders already sent and no
stop order sent. -/
theorem C7_amended_validation (reg : List Account)
    (post : Account → Params → Except PyErr Params) (names : List String)
    (symbol : String) (quantity : ℤ) (limitPrice : ℚ) (sell hidden : Bool)
    (displayQty : ℤ) (timeInForce : String) (reduceOnly stopLoss : Bool)
    (stopPrice : Option ℚ) (trigger : String) (rs : List (Account × Params)) :
    (timeInForce ∉ (["GoodTillCancel", "ImmediateOrCancel", "FillOrKill"] :
        List String) →
      order_limit reg post names symbol quantity limitPrice sell hidden
          displayQty timeInForce reduceOnly stopLoss stopPrice trigger =
        ([], .error (.base (.bitmexCore (tifErrMsg trigger)))))
    ∧ (timeInForce ∈ (["GoodTillCancel", "ImmediateOrCancel", "FillOrKill"] :
        List String) →
       trigger ∉ (["Mark", "Last", "Index"] : List String) →
       (for_each_account reg post names (order_limit_params symbol quantity
         limitPrice sell hidden displayQty timeInForce reduceOnly)).2 =
         .ok rs →
       order_limit reg post names symbol quantity limitPrice sell hidden
           displayQty timeInForce reduceOnly true stopPrice trigger =
         ((for_each_account reg post names (order_limit_params symbol quantity
            limitPrice sell hidden displayQty timeInForce reduceOnly)).1,
          .error (.base (.bitmexCore (triggerErrMsg trigger))))) := by
  constructor
  · intro h
    simp [order_limit, h]
  · intro ht htr hok
    rcases hfe : for_each_account reg post names (order_limit_params symbol
      quantity limitPrice sell hidden displayQty timeInForce reduceOnly)
      with ⟨sent1, out1⟩
    rw [hfe] at hok
    simp only at hok
    subst hok
    simp [order_limit, ht, htr, hfe]

/-- Claim C7 (witness): the amended theorem applied at concrete inputs —
an invalid time-in-force is rejected with no trace, and an invalid
stop-loss trigger is rejected with the primary order already sent. -/
theorem C7_amended_validation_witness :
    order_limit reg12 postOk ["acc1"] "XBTUSD" 10 100 false false 0
        "Sometimes" false false none "Last" =
      ([], .error (.base (.bitmexCore (tifErrMsg "Last"))))
    ∧ order_limit reg12 postOk ["acc1"] "XBTUSD" 10 100 false false 0
        "GoodTillCancel" false true none "Bogus" =
      ((for_each_account reg12 postOk ["acc1"] (order_limit_params "XBTUSD"
         10 100 false false 0 "GoodTillCancel" false)).1,
       .error (.base (.bitmexCore (triggerErrMsg "Bogus")))) := by
  constructor
  · exact (C7_amended_validation reg12 postOk ["acc1"] "XBTUSD" 10 100 false
      false 0 "Sometimes" false false none "Last" []).1 (by decide)
  · exact (C7_amended_validation reg12 postOk ["acc1"] "XBTUSD" 10 100 false
      false 0 "GoodTillCancel" false true none "Bogus"
      [(acct1, [("ordStatus", .str "New")])]).2 (by decide) (by decide)
      (by with_unfolding_all rfl)

/-- Claim C8: for every `life < 0`, both Transport calls (`_get` and
`_put_post_delete`) fail with the negative-life validation error before
any network request is issued — the HTTP trace is empty. -/
theorem C8_negative_life (now : ℤ) (host key secret path verb : String)
    (life : ℤ) (params : Params) (http : HttpReq → Except PyErr HttpResp)
    (h : life < 0) :
    api_get now host key secret path life params http =
      ([], .error (.bitmexApi ("Request life of " ++ toString life ++
        " is negative")))
    ∧ api_put_post_delete now host key secret path verb life params http =
      ([], .error (.bitmexApi ("Request life of " ++ toString life ++
        " is negative"))) := by
  constructor
  · simp [api_get, h]
  · simp [api_put_post_delete, h]

/-- Claim C8 (witness): the theorem applied at `life = -1`. -/
theorem C8_negative_life_witness :
    api_get 0 "https://h" "k" "s" "/order" (-1) [] httpUnreachable =
      ([], .error (.bitmexApi ("Request life of " ++ toString (-1 : ℤ) ++
        " is negative")))
    ∧ api_put_post_delete 0 "https://h" "k" "s" "/order" "POST" (-1) []
        httpUnreachable =
      ([], .error (.bitmexApi ("Request life of " ++ toString (-1 : ℤ) ++
        " is negative"))) :=
  C8_negative_life 0 "https://h" "k" "s" "/order" "POST" (-1) []
    httpUnreachable (by norm_num)
